import Mathlib

/-!
Shallow embedding of the Spatter benchmark core (src/Spatter/Configuration.hh)
and proofs about its gather/scatter kernels, setup, run dispatch and report.

Modelling conventions:
- `std::vector<double>` buffers are `List ℚ` (the kernels only copy values, so
  any exact value type is faithful); `std::vector<size_t>` patterns are `List Nat`.
- C++ `for (size_t i = 0; i < n; ++i) body` is a fold over `List.range n`.
- unchecked `operator[]` reads are `List.getD _ 0`; theorems carry the
  in-bounds hypotheses that the context establishes at setup, so the default
  value is never what is actually read.
- the Timer is modelled by passing the measured duration of the bracket as an
  explicit parameter to each kernel call (`timer.seconds()` returns the
  duration of the most recently completed start/stop bracket, i.e. exactly
  the duration of the bracket opened and closed inside the same call).
- `rand()` is modelled as an arbitrary stream `Nat → ℚ` consumed in call
  order (dense values first, then sparse values), mirroring the two loops of
  `ConfigurationBase::setup`.
- `exit(1)` in `setup` is modelled as `Except.error 1` (the process exit code).
- IEEE double division in `report` is modelled with an extended value type
  `FP` with infinities and NaN, so that the unguarded division by
  `time_seconds == 0` is represented faithfully instead of being hidden by
  the rational convention `x / 0 = 0`.
-/

namespace Spatter

/-- Per-character lowering as done by `std::tolower` in the C locale:
letters A..Z are mapped to a..z, everything else is unchanged. -/
def cToLower (c : Char) : Char :=
  if 'A' ≤ c ∧ c ≤ 'Z' then Char.ofNat (c.toNat + 32) else c

/-- The `std::transform(kernel.begin(), kernel.end(), kernel.begin(), tolower)`
call of the `ConfigurationBase` constructor. -/
def strToLower (s : String) : String :=
  String.mk (s.data.map cToLower)

/-- State of a `Spatter::ConfigurationBase` / `Configuration<Spatter::Serial>`
object: the lowered kernel name, the immutable pattern, the two buffers, the
run count, the verbosity and the accumulated elapsed seconds. -/
structure Config where
  kernel : String
  pattern : List Nat
  sparse : List ℚ
  dense : List ℚ
  nruns : Nat
  verbosity : Nat
  time_seconds : ℚ
deriving DecidableEq

/-- The `ConfigurationBase` constructor: stores the pattern, run count and
verbosity, lowers the kernel name, sets `time_seconds` to 0; the vector
members `sparse` and `dense` start empty (allocation happens in `setup`). -/
def mkConfig (k : String) (pattern : List Nat) (nruns verbosity : Nat) : Config :=
  { kernel := strToLower k
    pattern := pattern
    sparse := []
    dense := []
    nruns := nruns
    verbosity := verbosity
    time_seconds := 0 }

/-- A counted C++ loop `for (size_t i = 0; i < n; ++i)` threading a state. -/
def loopFor (n : Nat) (f : Nat → α → α) (a : α) : α :=
  (List.range n).foldl (fun acc i => f i acc) a

/-- First `m` iterations of the gather loop
`for i: dense[i] = sparse[pattern[i]]`. -/
def gatherUpTo (pattern : List Nat) (sparse : List ℚ) (m : Nat) (dense : List ℚ) :
    List ℚ :=
  loopFor m (fun i d => d.set i (sparse.getD (pattern.getD i 0) 0)) dense

/-- The gather loop body of `Configuration<Spatter::Serial>::gather`:
`for (size_t i = 0; i < pattern.size(); ++i) dense[i] = sparse[pattern[i]]`. -/
def gatherKernel (pattern : List Nat) (sparse dense : List ℚ) : List ℚ :=
  gatherUpTo pattern sparse pattern.length dense

/-- First `m` iterations of the scatter loop
`for i: sparse[pattern[i]] = dense[i]`. -/
def scatterUpTo (pattern : List Nat) (dense : List ℚ) (m : Nat) (sparse : List ℚ) :
    List ℚ :=
  loopFor m (fun i sp => sp.set (pattern.getD i 0) (dense.getD i 0)) sparse

/-- The scatter loop body of `Configuration<Spatter::Serial>::scatter`:
`for (size_t i = 0; i < pattern.size(); ++i) sparse[pattern[i]] = dense[i]`. -/
def scatterKernel (pattern : List Nat) (sparse dense : List ℚ) : List ℚ :=
  scatterUpTo pattern dense pattern.length sparse

/-- `Configuration<Spatter::Serial>::gather(timed)`: runs the gather loop; when
`timed` is set, the timer brackets the loop and `time_seconds` is overwritten
with `timer.seconds()`, the duration `dur` of this bracket. -/
def gather (timed : Bool) (dur : ℚ) (c : Config) : Config :=
  { c with
    dense := gatherKernel c.pattern c.sparse c.dense
    time_seconds := if timed then dur else c.time_seconds }

/-- `Configuration<Spatter::Serial>::scatter(timed)`: runs the scatter loop;
when `timed` is set, `time_seconds` is overwritten with the duration `dur` of
the bracket of this call. -/
def scatter (timed : Bool) (dur : ℚ) (c : Config) : Config :=
  { c with
    sparse := scatterKernel c.pattern c.sparse c.dense
    time_seconds := if timed then dur else c.time_seconds }

/-- `ConfigurationBase::run(timed)`: dispatches on the (already lowered)
kernel string; an unknown kernel prints a diagnostic and returns -1 without
calling either kernel; otherwise returns 0. -/
def run (timed : Bool) (dur : ℚ) (c : Config) : Int × Config :=
  if c.kernel = "gather" then (0, gather timed dur c)
  else if c.kernel = "scatter" then (0, scatter timed dur c)
  else (-1, c)

/-- The max loop of `ConfigurationBase::setup`:
`max_pattern_val = 0; for i: if (pattern[i] > max_pattern_val) ...`. -/
def maxPatternVal (pattern : List Nat) : Nat :=
  loopFor pattern.length
    (fun i m => if pattern.getD i 0 > m then pattern.getD i 0 else m) 0

/-- `ConfigurationBase::setup()`: an empty pattern is a fatal configuration
error (`exit(1)`, modelled as `Except.error 1` carrying the exit status);
otherwise `dense` is resized to the pattern length and filled with the next
`pattern.length` values of the rand stream, and `sparse` is resized to
`max_pattern_val + 1` and filled with the following values of the stream. -/
def setup (rand : Nat → ℚ) (c : Config) : Except Nat Config :=
  if c.pattern.length = 0 then
    Except.error 1
  else
    Except.ok
      { c with
        dense := (List.range c.pattern.length).map rand
        sparse := (List.range (maxPatternVal c.pattern + 1)).map
          (fun i => rand (c.pattern.length + i)) }

/-- The buffer sizing invariant established by `setup`:
`dense.size() == pattern.size()` and `sparse.size() == max(pattern) + 1`. -/
def sizeInv (c : Config) : Prop :=
  c.dense.length = c.pattern.length ∧
  c.sparse.length = maxPatternVal c.pattern + 1

/-- Extended value type for the result of IEEE double division in `report`:
a finite value, one of the two infinities, or NaN. -/
inductive FP where
  | fin : ℚ → FP
  | inf : FP
  | neginf : FP
  | nan : FP
deriving DecidableEq

/-- IEEE division of a finite double by a finite double: division by zero
yields NaN for a zero numerator and a signed infinity otherwise; a nonzero
divisor yields the finite quotient. -/
def fdiv (a b : ℚ) : FP :=
  if b = 0 then
    if a = 0 then FP.nan else if 0 < a then FP.inf else FP.neginf
  else FP.fin (a / b)

/-- IEEE division of an extended value by a finite double (the second
division `/ 1000000.` of `report`). -/
def FP.divq : FP → ℚ → FP
  | FP.fin a, b => fdiv a b
  | FP.inf, b => if 0 ≤ b then FP.inf else FP.neginf
  | FP.neginf, b => if 0 ≤ b then FP.neginf else FP.inf
  | FP.nan, _ => FP.nan

/-- `sizeof(size_t)` on the 64-bit target: the element size used by
`ConfigurationBase::report` for every byte count. -/
def sizeof_size_t : Nat := 8

/-- The four figures printed by `ConfigurationBase::report`. -/
structure Report where
  totalBytes : Nat
  bytesPerRun : Nat
  nruns : Nat
  seconds : ℚ
  bandwidth : FP
deriving DecidableEq

/-- `ConfigurationBase::report()`: total bytes moved
`nruns * pattern.size() * sizeof(size_t)`, bytes per run
`pattern.size() * sizeof(size_t)`, the elapsed seconds, and the average
bandwidth `(double)(nruns * pattern.size() * sizeof(size_t)) / time_seconds
/ 1000000.` with no guard on `time_seconds == 0`. -/
def report (c : Config) : Report :=
  { totalBytes := c.nruns * c.pattern.length * sizeof_size_t
    bytesPerRun := c.pattern.length * sizeof_size_t
    nruns := c.nruns
    seconds := c.time_seconds
    bandwidth :=
      FP.divq (fdiv ((c.nruns * c.pattern.length * sizeof_size_t : Nat) : ℚ)
        c.time_seconds) 1000000 }

/-- A `report()` call as a state transition: it prints the `Report` and
leaves the configuration object untouched. -/
def reportCall (c : Config) : Report × Config :=
  (report c, c)

/-- Which of the two kernels a call invokes. -/
inductive Op where
  | gatherOp : Op
  | scatterOp : Op
deriving DecidableEq

/-- Apply one kernel call (gather or scatter) with the given timed flag and
measured bracket duration. -/
def applyOp : Op → Bool → ℚ → Config → Config
  | Op.gatherOp, timed, dur, c => gather timed dur c
  | Op.scatterOp, timed, dur, c => scatter timed dur c

/-- A sequence of timed kernel calls, each with its own measured duration,
applied in order. -/
def runCalls (calls : List (Op × ℚ)) (c : Config) : Config :=
  calls.foldl (fun acc p => applyOp p.1 true p.2 acc) c

/-! Helper lemmas about the loop combinator and list indexing. -/

theorem loopFor_succ (n : Nat) (f : Nat → α → α) (a : α) :
    loopFor (n + 1) f a = f n (loopFor n f a) := by
  simp [loopFor, List.range_succ]

theorem getD_set_self (l : List α) (i : Nat) (a d : α) (h : i < l.length) :
    (l.set i a).getD i d = a := by
  rw [List.getD_eq_getD_get?, List.get?_eq_getElem?,
    List.getElem?_set_eq_of_lt a h, Option.getD_some]

theorem getD_set_ne (l : List α) (a d : α) {i j : Nat} (h : i ≠ j) :
    (l.set i a).getD j d = l.getD j d := by
  rw [List.getD_eq_getD_get?, List.get?_eq_getElem?, List.getElem?_set_ne h,
    List.getD_eq_getD_get?, List.get?_eq_getElem?]

theorem getD_mem_of_lt (p : List Nat) (i : Nat) (hi : i < p.length) :
    p.getD i 0 ∈ p := by
  rw [List.getD_eq_getElem p 0 hi]
  exact List.getElem_mem hi

theorem gatherUpTo_succ (p : List Nat) (sp : List ℚ) (m : Nat) (d : List ℚ) :
    gatherUpTo p sp (m + 1) d =
      (gatherUpTo p sp m d).set m (sp.getD (p.getD m 0) 0) :=
  loopFor_succ m _ d

theorem scatterUpTo_succ (p : List Nat) (d : List ℚ) (m : Nat) (sp : List ℚ) :
    scatterUpTo p d (m + 1) sp =
      (scatterUpTo p d m sp).set (p.getD m 0) (d.getD m 0) :=
  loopFor_succ m _ sp

theorem gatherUpTo_length (p : List Nat) (sp : List ℚ) (m : Nat) (d : List ℚ) :
    (gatherUpTo p sp m d).length = d.length := by
  induction m with
  | zero => rfl
  | succ m ih => rw [gatherUpTo_succ, List.length_set, ih]

theorem scatterUpTo_length (p : List Nat) (d : List ℚ) (m : Nat) (sp : List ℚ) :
    (scatterUpTo p d m sp).length = sp.length := by
  induction m with
  | zero => rfl
  | succ m ih => rw [scatterUpTo_succ, List.length_set, ih]

theorem gatherUpTo_getD (p : List Nat) (sp : List ℚ) (m : Nat) (d : List ℚ)
    (hm : m ≤ d.length) (i : Nat) :
    (gatherUpTo p sp m d).getD i 0 =
      if i < m then sp.getD (p.getD i 0) 0 else d.getD i 0 := by
  induction m with
  | zero => simp [gatherUpTo, loopFor]
  | succ m ih =>
      rw [gatherUpTo_succ]
      by_cases hi : i = m
      · subst hi
        rw [getD_set_self _ _ _ _ (by rw [gatherUpTo_length]; omega)]
        simp
      · rw [getD_set_ne _ _ _ (fun h => hi h.symm), ih (by omega)]
        by_cases h2 : i < m
        · simp [h2, Nat.lt_succ_of_lt h2]
        · have h3 : ¬ i < m + 1 := by omega
          simp [h2, h3]

theorem scatterUpTo_getD_not_written (p : List Nat) (d : List ℚ) (m : Nat)
    (sp : List ℚ) (j : Nat) (dflt : ℚ)
    (h : ∀ i, i < m → p.getD i 0 ≠ j) :
    (scatterUpTo p d m sp).getD j dflt = sp.getD j dflt := by
  induction m with
  | zero => rfl
  | succ m ih =>
      rw [scatterUpTo_succ, getD_set_ne _ _ _ (h m (by omega)),
        ih (fun i hi => h i (by omega))]

theorem scatterUpTo_getD_last (p : List Nat) (d : List ℚ) (m : Nat)
    (sp : List ℚ) (j iLast : Nat)
    (hlt : iLast < m) (hj : p.getD iLast 0 = j)
    (hlast : ∀ i, iLast < i → i < m → p.getD i 0 ≠ j)
    (hjlen : j < sp.length) :
    (scatterUpTo p d m sp).getD j 0 = d.getD iLast 0 := by
  induction m with
  | zero => omega
  | succ m ih =>
      rw [scatterUpTo_succ]
      by_cases he : iLast = m
      · subst he
        rw [hj, getD_set_self _ _ _ _ (by rw [scatterUpTo_length]; exact hjlen)]
      · rw [getD_set_ne _ _ _ (hlast m (by omega) (by omega))]
        exact ih (by omega) (fun i h1 h2 => hlast i h1 (by omega))

theorem loopMax_le_succ (p : List Nat) (m : Nat) :
    loopFor m (fun i m2 => if p.getD i 0 > m2 then p.getD i 0 else m2) 0 ≤
      loopFor (m + 1) (fun i m2 => if p.getD i 0 > m2 then p.getD i 0 else m2) 0 := by
  rw [loopFor_succ]
  split <;> omega

theorem getD_le_loopMax (p : List Nat) (m i : Nat) (hi : i < m) :
    p.getD i 0 ≤ loopFor m (fun i2 m2 => if p.getD i2 0 > m2 then p.getD i2 0 else m2) 0 := by
  induction m with
  | zero => omega
  | succ m ih =>
      by_cases he : i = m
      · subst he
        rw [loopFor_succ]
        split <;> omega
      · exact le_trans (ih (by omega)) (loopMax_le_succ p m)

theorem mem_le_maxPatternVal (p : List Nat) (j : Nat) (hj : j ∈ p) :
    j ≤ maxPatternVal p := by
  obtain ⟨i, hi, hget⟩ := List.mem_iff_getElem.mp hj
  have hD : p.getD i 0 = j := by rw [List.getD_eq_getElem p 0 hi, hget]
  rw [← hD]
  exact getD_le_loopMax p p.length i hi

theorem list_eq_of_length_four (l : List ℚ) (h : l.length = 4) :
    l = [l.getD 0 0, l.getD 1 0, l.getD 2 0, l.getD 3 0] := by
  rcases l with _ | ⟨a, _ | ⟨b, _ | ⟨c, _ | ⟨d, rest⟩⟩⟩⟩ <;> simp_all

/-! Concrete configurations used as evaluation points. -/

/-- A well-set-up gather context: pattern `[0,1,2,3]`, sparse of length
`max(pattern)+1 = 4`, dense of pattern length. -/
def demoConfig : Config :=
  { kernel := "gather"
    pattern := [0, 1, 2, 3]
    sparse := [3, 5, 7, 9]
    dense := [0, 0, 0, 0]
    nruns := 10
    verbosity := 3
    time_seconds := 0 }

/-- A scatter context whose pattern has a duplicate index (index 1 occurs at
positions 0 and 2). -/
def dupConfig : Config :=
  { kernel := "scatter"
    pattern := [1, 0, 1]
    sparse := [10, 20]
    dense := [100, 200, 300]
    nruns := 10
    verbosity := 3
    time_seconds := 0 }

/-! Claim theorems. -/

/-- C1: for a context with the setup sizing (dense as long as the pattern,
every pattern index inside sparse), a gather call sets `Dense[i]` to
`Sparse[Pattern[i]]` for every position `i < len(pattern)`; in particular,
with pattern `[0,1,2,3]` and sparse seeded as `[s0,s1,s2,s3,...]`, gather
yields dense exactly `[s0,s1,s2,s3]`. -/
theorem gather_correct (c : Config) (timed : Bool) (dur : ℚ)
    (hlen : c.dense.length = c.pattern.length)
    (hbound : ∀ j ∈ c.pattern, j < c.sparse.length) :
    (∀ i, i < c.pattern.length →
      (gather timed dur c).dense.getD i 0 = c.sparse.getD (c.pattern.getD i 0) 0) ∧
    (c.pattern = [0, 1, 2, 3] →
      ∀ s0 s1 s2 s3 : ℚ, ∀ rest : List ℚ,
        c.sparse = s0 :: s1 :: s2 :: s3 :: rest →
        (gather timed dur c).dense = [s0, s1, s2, s3]) := by
  have hget : ∀ i, i < c.pattern.length →
      (gather timed dur c).dense.getD i 0 = c.sparse.getD (c.pattern.getD i 0) 0 := by
    intro i hi
    show (gatherKernel c.pattern c.sparse c.dense).getD i 0 = _
    rw [gatherKernel, gatherUpTo_getD c.pattern c.sparse c.pattern.length c.dense
      (le_of_eq hlen.symm) i]
    simp [hi]
  refine ⟨hget, ?_⟩
  intro hp s0 s1 s2 s3 rest hs
  have hlen4 : (gather timed dur c).dense.length = 4 := by
    show (gatherKernel c.pattern c.sparse c.dense).length = 4
    rw [gatherKernel, gatherUpTo_length, hlen, hp]
    rfl
  rw [list_eq_of_length_four _ hlen4]
  rw [hget 0 (by rw [hp]; decide), hget 1 (by rw [hp]; decide),
    hget 2 (by rw [hp]; decide), hget 3 (by rw [hp]; decide), hp, hs]
  rfl

/-- C1 witness: evaluation of `gather_correct` on `demoConfig`. -/
theorem gather_correct_witness :
    (demoConfig.dense.length = demoConfig.pattern.length) ∧
    (gather true 1 demoConfig).dense = [3, 5, 7, 9] :=
  ⟨by decide,
    (gather_correct demoConfig true 1 (by decide) (by decide)).2 rfl
      3 5 7 9 [] rfl⟩

/-- C2: the Serial scatter is deterministic with last-index-wins semantics:
for a sparse slot `j` written by the pattern, the slot ends holding
`Dense[iLast]` for the largest position `iLast` with `Pattern[iLast] = j`,
and a sparse slot whose index does not occur in the pattern is unchanged. -/
theorem scatter_last_wins (c : Config) (timed : Bool) (dur : ℚ)
    (hlen : c.dense.length = c.pattern.length)
    (hbound : ∀ j ∈ c.pattern, j < c.sparse.length) :
    (∀ j iLast, iLast < c.pattern.length → c.pattern.getD iLast 0 = j →
      (∀ i, i < c.pattern.length → c.pattern.getD i 0 = j → i ≤ iLast) →
      (scatter timed dur c).sparse.getD j 0 = c.dense.getD iLast 0) ∧
    (∀ j, j < c.sparse.length → j ∉ c.pattern →
      (scatter timed dur c).sparse.getD j 0 = c.sparse.getD j 0) := by
  constructor
  · intro j iLast hilt hij hmax
    show (scatterKernel c.pattern c.sparse c.dense).getD j 0 = _
    rw [scatterKernel]
    refine scatterUpTo_getD_last c.pattern c.dense c.pattern.length c.sparse j iLast
      hilt hij ?_ ?_
    · intro i h1 h2 heq
      exact absurd (hmax i h2 heq) (by omega)
    · refine hbound j ?_
      rw [← hij]
      exact getD_mem_of_lt c.pattern iLast hilt
  · intro j hjlen hj
    show (scatterKernel c.pattern c.sparse c.dense).getD j 0 = _
    rw [scatterKernel]
    refine scatterUpTo_getD_not_written c.pattern c.dense c.pattern.length c.sparse j 0 ?_
    intro i hi heq
    exact hj (heq ▸ getD_mem_of_lt c.pattern i hi)

/-- C2 witness: on the duplicate pattern `[1,0,1]`, slot 1 ends holding
`Dense[2]` (the last write), not `Dense[0]`. -/
theorem scatter_last_wins_witness :
    (dupConfig.dense.length = dupConfig.pattern.length) ∧
    (scatter true 1 dupConfig).sparse.getD 1 0 = dupConfig.dense.getD 2 0 :=
  ⟨by decide,
    (scatter_last_wins dupConfig true 1 (by decide) (by decide)).1 1 2
      (by decide) (by decide) (by decide)⟩

/-- C3: for a non-empty, duplicate-free pattern, gather followed by scatter
(with the dense values produced by the gather) restores every sparse slot
whose index occurs in the pattern to its pre-gather value and leaves every
other sparse slot unchanged. -/
theorem gather_scatter_roundtrip (c : Config) (t1 t2 : Bool) (d1 d2 : ℚ)
    (hne : c.pattern ≠ [])
    (hnodup : c.pattern.Nodup)
    (hlen : c.dense.length = c.pattern.length)
    (hbound : ∀ j ∈ c.pattern, j < c.sparse.length) :
    (∀ j ∈ c.pattern,
      (scatter t2 d2 (gather t1 d1 c)).sparse.getD j 0 = c.sparse.getD j 0) ∧
    (∀ j, j < c.sparse.length → j ∉ c.pattern →
      (scatter t2 d2 (gather t1 d1 c)).sparse.getD j 0 = c.sparse.getD j 0) := by
  have hg := gather_correct c t1 d1 hlen hbound
  have hlen2 : (gather t1 d1 c).dense.length = (gather t1 d1 c).pattern.length := by
    show (gatherKernel c.pattern c.sparse c.dense).length = c.pattern.length
    rw [gatherKernel, gatherUpTo_length, hlen]
  have hbound2 : ∀ j ∈ (gather t1 d1 c).pattern, j < (gather t1 d1 c).sparse.length :=
    hbound
  have hs := scatter_last_wins (gather t1 d1 c) t2 d2 hlen2 hbound2
  constructor
  · intro j hj
    obtain ⟨i, hi, hget⟩ := List.mem_iff_getElem.mp hj
    have hD : c.pattern.getD i 0 = j := by
      rw [List.getD_eq_getElem c.pattern 0 hi, hget]
    have huniq : ∀ i2, i2 < c.pattern.length → c.pattern.getD i2 0 = j → i2 = i := by
      intro i2 hi2 hD2
      have : c.pattern[i2] = c.pattern[i] := by
        rw [← List.getD_eq_getElem c.pattern 0 hi2, ← List.getD_eq_getElem c.pattern 0 hi,
          hD2, hD]
      exact (List.Nodup.getElem_inj_iff hnodup).mp this
    have hwin := hs.1 j i hi hD (fun i2 h1 h2 => le_of_eq (huniq i2 h1 h2))
    rw [hwin, (hg.1 i hi), hD]
  · intro j hjlen hj
    exact hs.2 j hjlen hj

/-- C3 witness: evaluation of `gather_scatter_roundtrip` on `demoConfig` at
slot 2. -/
theorem gather_scatter_roundtrip_witness :
    demoConfig.pattern.Nodup ∧
    (scatter false 0 (gather false 0 demoConfig)).sparse.getD 2 0 =
      demoConfig.sparse.getD 2 0 :=
  ⟨by decide,
    (gather_scatter_roundtrip demoConfig false false 0 0 (by decide) (by decide)
      (by decide) (by decide)).1 2 (by decide)⟩

/-- C4: setup establishes the buffer-sizing invariant
(`len(dense) = len(pattern)` and `len(sparse) = max(pattern) + 1`), and the
invariant is preserved by every subsequent gather, scatter and run call;
a report call leaves the configuration unchanged, so it preserves the
invariant trivially. -/
theorem setup_sizes_invariant :
    (∀ (rand : Nat → ℚ) (c c2 : Config), setup rand c = Except.ok c2 → sizeInv c2) ∧
    (∀ (c : Config) (timed : Bool) (dur : ℚ), sizeInv c → sizeInv (gather timed dur c)) ∧
    (∀ (c : Config) (timed : Bool) (dur : ℚ), sizeInv c → sizeInv (scatter timed dur c)) ∧
    (∀ (c : Config) (timed : Bool) (dur : ℚ), sizeInv c → sizeInv (run timed dur c).2) ∧
    (∀ c : Config, (reportCall c).2 = c) := by
  have hsetup : ∀ (rand : Nat → ℚ) (c c2 : Config),
      setup rand c = Except.ok c2 → sizeInv c2 := by
    intro rand c c2 h
    rw [setup] at h
    by_cases h0 : c.pattern.length = 0
    · simp [h0] at h
    · simp only [h0, if_false, Except.ok.injEq] at h
      subst h
      constructor
      · simp
      · simp
  have hgather : ∀ (c : Config) (timed : Bool) (dur : ℚ),
      sizeInv c → sizeInv (gather timed dur c) := by
    intro c timed dur ⟨h1, h2⟩
    refine ⟨?_, h2⟩
    show (gatherKernel c.pattern c.sparse c.dense).length = c.pattern.length
    rw [gatherKernel, gatherUpTo_length, h1]
  have hscatter : ∀ (c : Config) (timed : Bool) (dur : ℚ),
      sizeInv c → sizeInv (scatter timed dur c) := by
    intro c timed dur ⟨h1, h2⟩
    refine ⟨h1, ?_⟩
    show (scatterKernel c.pattern c.sparse c.dense).length = maxPatternVal c.pattern + 1
    rw [scatterKernel, scatterUpTo_length, h2]
  refine ⟨hsetup, hgather, hscatter, ?_, fun c => rfl⟩
  intro c timed dur hc
  rw [run]
  by_cases hk1 : c.kernel = "gather"
  · simpa [hk1] using hgather c timed dur hc
  · by_cases hk2 : c.kernel = "scatter"
    · simpa [hk1, hk2] using hscatter c timed dur hc
    · simpa [hk1, hk2] using hc

/-- C4 witness: `demoConfig` satisfies the invariant and a gather call on it
preserves the invariant. -/
theorem setup_sizes_invariant_witness :
    sizeInv demoConfig ∧ sizeInv (gather true 1 demoConfig) :=
  ⟨⟨rfl, rfl⟩, setup_sizes_invariant.2.1 demoConfig true 1 ⟨rfl, rfl⟩⟩

/-- C5: run dispatches case-insensitively on the configured kernel name (the
constructor lowers it): a name lowering to "gather" runs gather and returns 0,
a name lowering to "scatter" runs scatter and returns 0, and any other name
returns -1 (nonzero) without touching dense, sparse or the elapsed seconds. -/
theorem run_dispatch (c : Config) (k : String) (timed : Bool) (dur : ℚ)
    (hk : c.kernel = strToLower k) :
    (strToLower k = "gather" → run timed dur c = (0, gather timed dur c)) ∧
    (strToLower k = "scatter" → run timed dur c = (0, scatter timed dur c)) ∧
    (strToLower k ≠ "gather" → strToLower k ≠ "scatter" →
      (run timed dur c).1 = -1 ∧ ((-1 : Int) ≠ 0) ∧
      (run timed dur c).2.dense = c.dense ∧
      (run timed dur c).2.sparse = c.sparse ∧
      (run timed dur c).2.time_seconds = c.time_seconds) := by
  refine ⟨?_, ?_, ?_⟩
  · intro h
    rw [run, hk, h]
    simp
  · intro h
    have hne : strToLower k ≠ "gather" := by
      rw [h]
      decide
    rw [run, hk, h]
    simp
  · intro h1 h2
    rw [run, hk]
    simp [h1, h2]

/-- C5 witness: a kernel configured as "GATHER" dispatches to gather, and a
kernel configured as "Invalid" returns -1 leaving the state untouched. -/
theorem run_dispatch_witness :
    (run true 1 (mkConfig "GATHER" [0] 10 3) =
      (0, gather true 1 (mkConfig "GATHER" [0] 10 3))) ∧
    ((run true 1 (mkConfig "Invalid" [0] 10 3)).1 = -1 ∧
      (run true 1 (mkConfig "Invalid" [0] 10 3)).2.dense =
        (mkConfig "Invalid" [0] 10 3).dense) :=
  ⟨(run_dispatch (mkConfig "GATHER" [0] 10 3) "GATHER" true 1 rfl).1 (by decide),
    ⟨((run_dispatch (mkConfig "Invalid" [0] 10 3) "Invalid" true 1 rfl).2.2
        (by decide) (by decide)).1,
      ((run_dispatch (mkConfig "Invalid" [0] 10 3) "Invalid" true 1 rfl).2.2
        (by decide) (by decide)).2.2.1⟩⟩

/-- C6: setup on a zero-length pattern fails with exit status 1 (nonzero)
before any allocation — the buffers of a freshly constructed configuration
are empty and stay so — and for every pattern of length at least 1 the error
branch is not taken and setup succeeds. -/
theorem setup_empty_pattern_error :
    (∀ (rand : Nat → ℚ) (c : Config), c.pattern = [] →
      setup rand c = Except.error 1 ∧ (1 : Nat) ≠ 0) ∧
    (∀ (k : String) (nruns verbosity : Nat),
      (mkConfig k [] nruns verbosity).dense = [] ∧
      (mkConfig k [] nruns verbosity).sparse = []) ∧
    (∀ (rand : Nat → ℚ) (c : Config), 1 ≤ c.pattern.length →
      ∃ c2, setup rand c = Except.ok c2) := by
  refine ⟨?_, fun k nruns verbosity => ⟨rfl, rfl⟩, ?_⟩
  · intro rand c hp
    rw [setup]
    simp [hp]
  · intro rand c hp
    rw [setup]
    have h0 : ¬ c.pattern.length = 0 := by omega
    simp only [h0, if_false]
    exact ⟨_, rfl⟩

/-- C6 witness: a configuration constructed with the empty pattern has empty
buffers and its setup fails with exit status 1, while setup on `demoConfig`
succeeds. -/
theorem setup_empty_pattern_error_witness :
    setup (fun _ => 0) (mkConfig "gather" [] 10 3) = Except.error 1 ∧
    ∃ c2, setup (fun _ => 0) demoConfig = Except.ok c2 :=
  ⟨(setup_empty_pattern_error.1 (fun _ => 0) (mkConfig "gather" [] 10 3) rfl).1,
    setup_empty_pattern_error.2.2 (fun _ => 0) demoConfig (by decide)⟩

/-- A context whose elapsed seconds is exactly zero, as handed to report. -/
def zeroTimeConfig : Config :=
  { kernel := "gather"
    pattern := [0, 1, 2, 3]
    sparse := [1, 2, 3, 4]
    dense := [0, 0, 0, 0]
    nruns := 10
    verbosity := 3
    time_seconds := 0 }

/-- C7 evidence: report has no guard on `time_seconds == 0`; with a nonzero
byte count it performs the division anyway and the bandwidth figure is
positive infinity, not a defined undefined-bandwidth sentinel. -/
theorem report_zero_time_is_infinity :
    (report zeroTimeConfig).bandwidth = FP.inf ∧ FP.inf ≠ FP.nan := by
  constructor
  · rfl
  · decide

/-- The concrete report evaluation point of the spec: N=10, pattern length 4,
elapsed seconds 1. -/
def reportExample : Config :=
  { kernel := "gather"
    pattern := [0, 1, 2, 3]
    sparse := [1, 2, 3, 4]
    dense := [5, 6, 7, 8]
    nruns := 10
    verbosity := 3
    time_seconds := 1 }

/-- C8: report computes total bytes `N*P*8`, bytes per run `P*8` and, for a
nonzero elapsed time, bandwidth `(N*P*8) / T / 1000000` MB/s; at N=10, P=4,
T=1 this is 320 total bytes, 32 bytes per run and 0.00032 MB/s. -/
theorem report_arithmetic :
    (∀ c : Config,
      (report c).totalBytes = c.nruns * c.pattern.length * 8 ∧
      (report c).bytesPerRun = c.pattern.length * 8 ∧
      (c.time_seconds ≠ 0 →
        (report c).bandwidth =
          FP.fin (((c.nruns * c.pattern.length * 8 : Nat) : ℚ) /
            c.time_seconds / 1000000))) ∧
    ((report reportExample).totalBytes = 320 ∧
      (report reportExample).bytesPerRun = 32 ∧
      (report reportExample).bandwidth = FP.fin (0.00032 : ℚ)) := by
  have hgen : ∀ c : Config,
      (report c).totalBytes = c.nruns * c.pattern.length * 8 ∧
      (report c).bytesPerRun = c.pattern.length * 8 ∧
      (c.time_seconds ≠ 0 →
        (report c).bandwidth =
          FP.fin (((c.nruns * c.pattern.length * 8 : Nat) : ℚ) /
            c.time_seconds / 1000000)) := by
    intro c
    refine ⟨rfl, rfl, ?_⟩
    intro ht
    show FP.divq (fdiv _ _) _ = _
    rw [fdiv, if_neg ht]
    show fdiv _ _ = _
    rw [fdiv, if_neg (by norm_num)]
    rfl
  refine ⟨hgen, rfl, rfl, ?_⟩
  rw [(hgen reportExample).2.2 (by norm_num [reportExample])]
  norm_num [reportExample, sizeof_size_t]

/-- C8 witness: evaluation of `report_arithmetic` at `reportExample`, whose
elapsed time 1 is nonzero. -/
theorem report_arithmetic_witness :
    reportExample.time_seconds ≠ 0 ∧
    (report reportExample).bandwidth =
      FP.fin (((reportExample.nruns * reportExample.pattern.length * 8 : Nat) : ℚ) /
        reportExample.time_seconds / 1000000) :=
  ⟨by norm_num [reportExample],
    (report_arithmetic.1 reportExample).2.2 (by norm_num [reportExample])⟩

/-- C9: for the Serial variant every timed kernel call overwrites the
accumulated elapsed seconds with the duration of its own timer bracket, so
after any sequence of timed calls the recorded elapsed seconds is the
duration of the last call only. -/
theorem timed_calls_overwrite (calls : List (Op × ℚ)) (c : Config) (op : Op)
    (d : ℚ) :
    (applyOp op true d (runCalls calls c)).time_seconds = d := by
  cases op <;> simp [applyOp, gather, scatter]

/-- C10: Serial gather modifies only the dense buffer, Serial scatter
modifies only the sparse buffer (pattern, kernel and run count are untouched
by both), and an untimed call of either kernel leaves the accumulated
elapsed seconds unchanged. -/
theorem serial_kernel_frame (c : Config) (timed : Bool) (dur : ℚ) :
    (gather timed dur c).sparse = c.sparse ∧
    (gather timed dur c).pattern = c.pattern ∧
    (gather timed dur c).kernel = c.kernel ∧
    (gather timed dur c).nruns = c.nruns ∧
    (scatter timed dur c).dense = c.dense ∧
    (scatter timed dur c).pattern = c.pattern ∧
    (scatter timed dur c).kernel = c.kernel ∧
    (scatter timed dur c).nruns = c.nruns ∧
    (gather false dur c).time_seconds = c.time_seconds ∧
    (scatter false dur c).time_seconds = c.time_seconds := by
  refine ⟨rfl, rfl, rfl, rfl, rfl, rfl, rfl, rfl, ?_, ?_⟩ <;>
    simp [gather, scatter]

end Spatter
